import Mathlib

/-!
Verification of the VRP solver front-end `web_vrp_modelos.py`.

The source builds a data model (`create_data_model`), compiles an OR-Tools
routing model with a cost callback and optional Capacity / Time dimensions
and solves it (`solve_vrp`), and extracts per-vehicle routes with costs
(`get_routes`).  Distances and the cost factor are Python floats; here they
are embedded as exact rationals (every concrete value used below is exactly
representable as a binary float, so the embedding is faithful on them).
The external routing library (the search engine) is not part of the source
tree; where its behaviour matters it is modelled from the spec, and those
definitions say so in their doc comments.
-/

/-- Truthiness of an optional Python list: `None` and `[]` are falsy.
`create_data_model` stores an auxiliary list only when it is truthy
(`if demands: ...`) and falls back to one vehicle when the capacities
list is absent or empty. -/
def listTruthy {α : Type} (o : Option (List α)) : Option (List α) :=
  match o with
  | some [] => none
  | some l => some l
  | none => none

/-- The dictionary built by `create_data_model` (source lines 13-27). -/
structure DataModel where
  distance_matrix : List (List ℚ)
  num_vehicles : Nat
  depot : Nat
  cost_per_km : ℚ
  demands : Option (List ℤ)
  vehicle_capacities : Option (List ℤ)
  time_windows : Option (List (ℤ × ℤ))
  deriving Repr, DecidableEq

/-- Embedding of `create_data_model` (source lines 13-27): packs the raw
inputs into a dictionary with `depot = 0`, deriving the vehicle count from
the capacities list when that list is truthy (`len(vehicle_capacities) if
vehicle_capacities else 1`), and storing each optional list only when
truthy.  The source performs no validation of any kind. -/
def create_data_model (distance_matrix : List (List ℚ))
    (demands : Option (List ℤ) := none)
    (vehicle_capacities : Option (List ℤ) := none)
    (time_windows : Option (List (ℤ × ℤ)) := none)
    (cost_per_km : ℚ := 1) : DataModel :=
  { distance_matrix := distance_matrix
    num_vehicles :=
      match listTruthy vehicle_capacities with
      | some caps => caps.length
      | none => 1
    depot := 0
    cost_per_km := cost_per_km
    demands := listTruthy demands
    vehicle_capacities := listTruthy vehicle_capacities
    time_windows := listTruthy time_windows }

/-- Python `int()` on a rational: truncation toward zero. -/
def pyInt (q : ℚ) : ℤ :=
  if 0 ≤ q then ⌊q⌋ else -⌊-q⌋

/-- Python `round()` on a rational: round half to even. -/
def pyRound (q : ℚ) : ℤ :=
  if q - ⌊q⌋ < 1 / 2 then ⌊q⌋
  else if 1 / 2 < q - ⌊q⌋ then ⌊q⌋ + 1
  else if ⌊q⌋ % 2 = 0 then ⌊q⌋ else ⌊q⌋ + 1

/-- Entry `distance_matrix[i][j]` of a data model.  All uses below keep
`i`, `j` inside the matrix, so the out-of-range default is never hit. -/
def dist (data : DataModel) (i j : Nat) : ℚ :=
  (data.distance_matrix.getD i []).getD j 0

/-- Embedding of `distance_callback` (source lines 35-38): the arc cost
evaluator, `int(distance_matrix[from][to] * cost_per_km)`. -/
def distance_callback (data : DataModel) (i j : Nat) : ℤ :=
  pyInt (dist data i j * data.cost_per_km)

/-- Embedding of `demand_callback` (source lines 44-45):
`demands[node]`. -/
def demand_callback (data : DataModel) (n : Nat) : ℤ :=
  (data.demands.getD []).getD n 0

/-- Embedding of `time_callback` (source lines 56-59): the raw
`distance_matrix[from][to]`, with no `cost_per_km` scaling and no
integer cast. -/
def time_callback (data : DataModel) (i j : Nat) : ℚ :=
  dist data i j

/-- The Capacity dimension installed by
`AddDimensionWithVehicleCapacity(demand_callback_index, 0,
data.vehicle_capacities, True, "Capacity")` (source lines 48-53).
`cumul_min` is modelled from the spec: the routing library keeps every
cumulative variable non-negative, so the dimension's lower bound is 0. -/
structure CapacityDim where
  demand_eval : Nat → ℤ
  slack_max : ℤ
  vehicle_capacities : List ℤ
  fix_start_cumul_to_zero : Bool
  cumul_min : ℤ
  dim_name : String

/-- The Time dimension installed by `AddDimension(time_callback_index, 30,
1440, False, "Time")` followed by `SetRange(tw[0], tw[1])` on each node's
cumulative variable (source lines 61-71).  `cumul_ranges` records, per
node index, the `[earliest, latest]` range set on that node's cumulative
variable. -/
structure TimeDim where
  transit_eval : Nat → Nat → ℚ
  slack_max : ℤ
  capacity : ℤ
  fix_start_cumul_to_zero : Bool
  dim_name : String
  cumul_ranges : List (ℤ × ℤ)

/-- Search parameters: the source takes `DefaultRoutingSearchParameters()`
and sets `first_solution_strategy = PATH_CHEAPEST_ARC` (source lines
73-75). -/
structure SearchParameters where
  first_solution_strategy : Nat
  deriving Repr, DecidableEq

/-- Value of `routing_enums_pb2.FirstSolutionStrategy.PATH_CHEAPEST_ARC`. -/
def PATH_CHEAPEST_ARC : Nat := 3

/-- Everything `solve_vrp` registers on the routing model before calling
the search: the arc cost evaluator of all vehicles, the optional Capacity
and Time dimensions, and the search parameters (source lines 30-75). -/
structure RoutingSetup where
  arc_cost : Nat → Nat → ℤ
  capacity_dimension : Option CapacityDim
  time_dimension : Option TimeDim
  search_parameters : SearchParameters

/-- The model-compilation part of `solve_vrp` (source lines 30-75):
registers `distance_callback` as the arc cost evaluator of all vehicles;
when `use_capacity` adds the Capacity dimension (slack 0, per-vehicle
capacities, start cumul fixed to zero); when `use_time_windows` adds the
Time dimension (slack 30, capacity 1440, start cumul not fixed to zero)
and sets each node's cumulative range from `time_windows`. -/
def compile_routing (data : DataModel) (use_capacity use_time_windows : Bool) :
    RoutingSetup :=
  { arc_cost := distance_callback data
    capacity_dimension :=
      if use_capacity then
        some { demand_eval := demand_callback data
               slack_max := 0
               vehicle_capacities := data.vehicle_capacities.getD []
               fix_start_cumul_to_zero := true
               cumul_min := 0
               dim_name := "Capacity" }
      else none
    time_dimension :=
      if use_time_windows then
        some { transit_eval := time_callback data
               slack_max := 30
               capacity := 1440
               fix_start_cumul_to_zero := false
               dim_name := "Time"
               cumul_ranges := data.time_windows.getD [] }
      else none
    search_parameters := { first_solution_strategy := PATH_CHEAPEST_ARC } }

/-- Modelled from the spec: the Search Engine (delegated to the external
routing library, absent from the source tree) returns only complete
feasible assignments — every non-depot node is assigned to exactly one
vehicle and visited exactly once, no vehicle revisits the depot
mid-route, and all visited nodes are nodes of the model. -/
def FeasibleAssignment (data : DataModel) (assignment : List (List Nat)) : Prop :=
  assignment.length = data.num_vehicles ∧
  (∀ l ∈ assignment, data.depot ∉ l ∧ ∀ n ∈ l, n < data.distance_matrix.length) ∧
  (∀ n, n < data.distance_matrix.length → n ≠ data.depot →
    (assignment.map (fun l => l.count n)).sum = 1)

instance (data : DataModel) (assignment : List (List Nat)) :
    Decidable (FeasibleAssignment data assignment) := by
  unfold FeasibleAssignment; infer_instance

/-- Embedding of the tail of `solve_vrp` (source lines 77-80): run the
search on the compiled model; `if not solution: return None, ...`, else
return the solution.  The search engine itself is external, so it is a
parameter here. -/
def solve_vrp (data : DataModel) (use_capacity use_time_windows : Bool)
    (engine : DataModel → RoutingSetup → Option (List (List Nat))) :
    Option (List (List Nat)) × RoutingSetup :=
  let setup := compile_routing data use_capacity use_time_windows
  match engine data setup with
  | none => (none, setup)
  | some sol => (some sol, setup)

/-- The successor-chain walk of `get_routes` (source lines 90-96) from a
node that is not the vehicle's start: append each node and add
`GetArcCostForVehicle(previous, next, v)` — on these arcs the registered
`distance_callback` — until the end node (the depot) is reached, then
append it.  The arc from the last visited customer into the vehicle's
end is an ordinary arcs-to-end arc and is charged by the evaluator. -/
def get_route_go (data : DataModel) : Nat → List Nat → List Nat × ℤ
  | current, [] =>
    ([current, data.depot], distance_callback data current data.depot)
  | current, next :: rest =>
    let r := get_route_go data next rest
    (current :: r.1, distance_callback data current next + r.2)

/-- One vehicle's loop in `get_routes` (source lines 87-96): start at the
vehicle's start node (the depot), follow the successor chain, and
accumulate `GetArcCostForVehicle(previous, next, v)` along each step.
When the vehicle serves no customer the single step goes straight from
the vehicle's start to its end, and OR-Tools charges that arc 0 (the
vehicle is unused and the source never calls `SetVehicleUsedWhenEmpty`);
every other arc — including the start-to-first-customer arc and the
last-customer-to-end arc — is charged by the registered
`distance_callback`. -/
def get_route (data : DataModel) (visits : List Nat) : List Nat × ℤ :=
  match visits with
  | [] => ([data.depot, data.depot], 0)
  | next :: rest =>
    let r := get_route_go data next rest
    (data.depot :: r.1, distance_callback data data.depot next + r.2)

/-- Embedding of `get_routes` (source lines 83-99): for each vehicle id in
`range(num_vehicles)`, extract its route and cost and accumulate the
total cost. -/
def get_routes (data : DataModel) (assignment : List (List Nat)) :
    List (List Nat × ℤ) × ℤ :=
  (List.range data.num_vehicles).foldl
    (fun acc v =>
      (acc.1 ++ [get_route data (assignment.getD v [])],
       acc.2 + (get_route data (assignment.getD v [])).2))
    ([], 0)

/-- Sum of the registered arc costs over consecutive node pairs of a
route. -/
def arc_cost_sum (data : DataModel) : List Nat → ℤ
  | a :: b :: rest => distance_callback data a b + arc_cost_sum data (b :: rest)
  | _ => 0

/-- A square matrix: every row's length equals the number of rows. -/
def SquareMatrix (m : List (List ℚ)) : Prop :=
  ∀ row ∈ m, row.length = m.length

instance (m : List (List ℚ)) : Decidable (SquareMatrix m) := by
  unfold SquareMatrix; infer_instance

/-- Total cost of one full solve run, as driven by the app (source lines
145-166): build the routing model, run the search, and on success extract
the routes and report the total cost. -/
def solve_total (data : DataModel) (uc utw : Bool)
    (engine : DataModel → RoutingSetup → Option (List (List Nat))) : Option ℤ :=
  match (solve_vrp data uc utw engine).1 with
  | none => none
  | some a => some (get_routes data a).2

/-- Two-node model with distance 3 between depot and node 1 and cost
factor 0.5; both values are exactly representable as Python floats. -/
def c3data : DataModel := create_data_model [[0, 3], [3, 0]] none none none (1 / 2)

/-- One-node model (the depot alone) with `distance_matrix = [[5]]` and
two vehicles: every vehicle necessarily serves zero customers. -/
def c8data : DataModel := create_data_model [[5]] none (some [10, 10]) none 1

/-- Two-node model whose depot self-distance is 0. -/
def c8zero : DataModel := create_data_model [[0, 1], [1, 0]] none (some [10, 10]) none 1

/-- Three-node model with one vehicle. -/
def c1data : DataModel :=
  create_data_model [[0, 1, 2], [1, 0, 1], [2, 1, 0]] none (some [10]) none 1

/-- Two-node model with demands, one capacity and time windows: the
concrete VRPTW instance used to instantiate the dimension theorems. -/
def vrptwData : DataModel :=
  create_data_model [[0, 1], [1, 0]] (some [0, 1]) (some [5])
    (some [(0, 100), (0, 50)]) 1

/-- Two-node model with distance 2 and unit cost factor. -/
def c9data : DataModel := create_data_model [[0, 2], [2, 0]] none none none 1

/-- An engine that finds no feasible assignment. -/
def noSolutionEngine : DataModel → RoutingSetup → Option (List (List Nat)) :=
  fun _ _ => none

/-- An engine that always returns the assignment sending node 1 to the
single vehicle. -/
def fixedEngine : DataModel → RoutingSetup → Option (List (List Nat)) :=
  fun _ _ => some [[1]]

lemma get_route_go_fst (data : DataModel) (c : Nat) (visits : List Nat) :
    (get_route_go data c visits).1 = c :: (visits ++ [data.depot]) := by
  induction visits generalizing c with
  | nil => rfl
  | cons n rest ih => simp [get_route_go, ih]

lemma get_route_go_snd (data : DataModel) (c : Nat) (visits : List Nat) :
    (get_route_go data c visits).2 = arc_cost_sum data ((get_route_go data c visits).1) := by
  induction visits generalizing c with
  | nil => simp [get_route_go, arc_cost_sum]
  | cons n rest ih =>
    have h := ih n
    rw [get_route_go_fst] at h
    show distance_callback data c n + (get_route_go data n rest).2
        = arc_cost_sum data ((get_route_go data c (n :: rest)).1)
    rw [get_route_go_fst, h]
    rfl

lemma get_route_fst (data : DataModel) (visits : List Nat) :
    (get_route data visits).1 = data.depot :: (visits ++ [data.depot]) := by
  match visits with
  | [] => rfl
  | next :: rest =>
    show data.depot :: (get_route_go data next rest).1 = _
    rw [get_route_go_fst]
    rfl

lemma get_route_snd_of_ne_nil (data : DataModel) (visits : List Nat)
    (h : visits ≠ []) :
    (get_route data visits).2 = arc_cost_sum data ((get_route data visits).1) := by
  match visits with
  | [] => exact absurd rfl h
  | next :: rest =>
    show distance_callback data data.depot next + (get_route_go data next rest).2
        = arc_cost_sum data (data.depot :: (get_route_go data next rest).1)
    rw [get_route_go_snd, get_route_go_fst]
    rfl

lemma get_routes_foldl (data : DataModel) (assignment : List (List Nat)) (l : List Nat)
    (acc : List (List Nat × ℤ) × ℤ) :
    (l.foldl
      (fun acc v =>
        (acc.1 ++ [get_route data (assignment.getD v [])],
         acc.2 + (get_route data (assignment.getD v [])).2))
      acc)
    = (acc.1 ++ l.map (fun v => get_route data (assignment.getD v [])),
       acc.2 + (l.map (fun v => (get_route data (assignment.getD v [])).2)).sum) := by
  induction l generalizing acc with
  | nil => simp
  | cons v t ih =>
    rw [List.foldl_cons, ih]
    simp [add_assoc]

lemma get_routes_fst (data : DataModel) (assignment : List (List Nat)) :
    (get_routes data assignment).1
      = (List.range data.num_vehicles).map
          (fun v => get_route data (assignment.getD v [])) := by
  rw [get_routes, get_routes_foldl]
  simp

lemma get_routes_snd (data : DataModel) (assignment : List (List Nat)) :
    (get_routes data assignment).2
      = ((List.range data.num_vehicles).map
          (fun v => (get_route data (assignment.getD v [])).2)).sum := by
  rw [get_routes, get_routes_foldl]
  simp

lemma getD_range_map {α : Type} (a : List α) (d : α) :
    (List.range a.length).map (fun i => a.getD i d) = a := by
  apply List.ext_getElem
  · simp
  · intro i h1 h2
    simp only [List.getElem_map, List.getElem_range]
    exact a.getD_eq_getElem d (by simpa using h2)


/-- C10: for every combination of inputs, the data model produced by
`create_data_model` has its depot fixed at node index 0; the function
exposes no parameter that could select a different depot node. -/
theorem create_data_model_depot_zero (distance_matrix : List (List ℚ))
    (demands vehicle_capacities : Option (List ℤ))
    (time_windows : Option (List (ℤ × ℤ))) (cost_per_km : ℚ) :
    (create_data_model distance_matrix demands vehicle_capacities time_windows
      cost_per_km).depot = 0 := rfl

/-- C2 counterexample: `create_data_model` accepts a non-square distance
matrix without any failure — the model is built and stores the invalid
matrix unchanged — and an empty capacities list is silently coerced to a
single-vehicle model instead of failing.  The source contains no
validation and no `ValidationError` at all. -/
theorem create_data_model_accepts_invalid :
    ¬ SquareMatrix [[0], [1, 2]] ∧
    (create_data_model [[0], [1, 2]]).distance_matrix = [[0], [1, 2]] ∧
    (create_data_model [[0, 1], [1, 0]] none (some [])).num_vehicles = 1 := by
  refine ⟨by with_unfolding_all decide, rfl, rfl⟩

/-- C2 (amended): model building never fails and never validates: even on
a non-square matrix `create_data_model` returns a model carrying the
matrix as given, and an empty capacities list is silently treated as
absent, so the vehicle count falls back to 1. -/
theorem create_data_model_no_validation (dm : List (List ℚ))
    (dem caps : Option (List ℤ)) (tws : Option (List (ℤ × ℤ))) (cpk : ℚ)
    (_h : ¬ SquareMatrix dm) :
    (create_data_model dm dem caps tws cpk).distance_matrix = dm ∧
    (create_data_model dm none (some []) tws cpk).num_vehicles = 1 :=
  ⟨rfl, rfl⟩

theorem create_data_model_no_validation_witness :
    (¬ SquareMatrix [[0], [1, 2]]) ∧
    ((create_data_model [[0], [1, 2]] none none none 1).distance_matrix = [[0], [1, 2]] ∧
     (create_data_model [[0], [1, 2]] none (some []) none 1).num_vehicles = 1) :=
  ⟨by with_unfolding_all decide,
   create_data_model_no_validation [[0], [1, 2]] none none none 1
     (by with_unfolding_all decide)⟩

/-- C3 counterexample: on arc (0,1) of `c3data` the registered cost
evaluator charges `int(3 * 0.5) = 1`, while `round(3 * 0.5) = 2`: the arc
cost is the truncation of the scaled distance, not its rounding. -/
theorem arc_cost_is_not_round :
    (compile_routing c3data false false).arc_cost 0 1
        ≠ pyRound (dist c3data 0 1 * c3data.cost_per_km) ∧
    (compile_routing c3data false false).arc_cost 0 1 = 1 ∧
    pyRound (dist c3data 0 1 * c3data.cost_per_km) = 2 := by
  refine ⟨by with_unfolding_all decide, by with_unfolding_all decide,
    by with_unfolding_all decide⟩

/-- C3 (amended): for every arc (i,j) charged by the registered evaluator
the cost is `int(distance[i][j] * cost_per_km)` — truncation toward zero
of the scaled distance (its floor on the app's non-negative inputs), not
`round()` — and these integerized per-arc costs are exactly what the
route extractor accumulates along every route that serves at least one
customer; the single start-to-end arc of an empty route is instead
charged 0 by the library. -/
theorem arc_cost_truncation_accumulation (data : DataModel) (uc utw : Bool)
    (visits : List Nat) (h : visits ≠ []) :
    (∀ i j, (compile_routing data uc utw).arc_cost i j
        = pyInt (dist data i j * data.cost_per_km)) ∧
    (get_route data visits).2 = arc_cost_sum data ((get_route data visits).1) ∧
    (get_route data []).2 = 0 :=
  ⟨fun _ _ => rfl, get_route_snd_of_ne_nil data visits h, rfl⟩

theorem arc_cost_truncation_accumulation_witness :
    ([1] : List Nat) ≠ [] ∧
    ((compile_routing c3data false false).arc_cost 0 1
        = pyInt (dist c3data 0 1 * c3data.cost_per_km) ∧
     (get_route c3data [1]).2 = arc_cost_sum c3data ((get_route c3data [1]).1) ∧
     (get_route c3data []).2 = 0) := by
  have h := arc_cost_truncation_accumulation c3data false false [1] (by decide)
  exact ⟨by decide, h.1 0 1, h.2.1, h.2.2⟩

/-- C7 counterexample: with `distance_matrix = [[5]]` and two vehicles the
only feasible assignment leaves both vehicles empty; each extracted route
is `[0, 0]` with charged route cost 0 (the empty start-to-end arc), while
the sum of the integerized arc costs over that route's consecutive node
pair (0,0) is `int(5 * 1) = 5`: a route cost is not always the
consecutive-pair sum of the integerized arc costs. -/
theorem route_cost_not_pairwise_sum_on_empty :
    FeasibleAssignment c8data [[], []] ∧
    (get_routes c8data [[], []]).1 = [([0, 0], 0), ([0, 0], 0)] ∧
    (get_routes c8data [[], []]).2 = 0 ∧
    arc_cost_sum c8data [0, 0] = 5 ∧
    ((0 : ℤ) ≠ 5) := by
  refine ⟨by with_unfolding_all decide, by with_unfolding_all decide,
    by with_unfolding_all decide, by with_unfolding_all decide, by decide⟩

/-- C7 (amended): the total cost returned by `get_routes` is the sum of
the per-vehicle route costs; each vehicle that serves at least one
customer has route cost equal to the sum of the integerized arc costs
over consecutive node pairs of its extracted route, while each empty
route (vehicle serving zero customers) has route cost 0 regardless of its
depot-to-depot pair. -/
theorem total_cost_sum_routes (data : DataModel)
    (assignment : List (List Nat)) :
    (get_routes data assignment).2
        = ((get_routes data assignment).1.map Prod.snd).sum ∧
    (get_routes data assignment).1
        = (List.range data.num_vehicles).map
            (fun v => get_route data (assignment.getD v [])) ∧
    (∀ v, assignment.getD v [] ≠ [] →
        (get_route data (assignment.getD v [])).2
          = arc_cost_sum data ((get_route data (assignment.getD v [])).1)) ∧
    (∀ v, assignment.getD v [] = [] →
        (get_route data (assignment.getD v [])).2 = 0) := by
  refine ⟨?_, get_routes_fst data assignment,
    fun v hv => get_route_snd_of_ne_nil data _ hv, fun v hv => by rw [hv]; rfl⟩
  rw [get_routes_fst, get_routes_snd, List.map_map]
  rfl

theorem total_cost_sum_routes_witness :
    (get_routes c1data [[1, 2]]).2
        = ((get_routes c1data [[1, 2]]).1.map Prod.snd).sum ∧
    ([[1, 2]] : List (List Nat)).getD 0 [] ≠ [] ∧
    (get_route c1data (([[1, 2]] : List (List Nat)).getD 0 [])).2
        = arc_cost_sum c1data
            ((get_route c1data (([[1, 2]] : List (List Nat)).getD 0 [])).1) ∧
    ([[1, 2]] : List (List Nat)).getD 5 [] = [] ∧
    (get_route c1data (([[1, 2]] : List (List Nat)).getD 5 [])).2 = 0 := by
  have h := total_cost_sum_routes c1data [[1, 2]]
  exact ⟨h.1, by decide, h.2.2.1 0 (by decide), by decide, h.2.2.2 5 (by decide)⟩

/-- C8: in every solved instance, a vehicle that serves zero customers
still yields the extracted route `[depot, depot]` with route cost 0: its
single step goes from the vehicle's start straight to its end, an arc
OR-Tools charges 0 for an unused vehicle. -/
theorem zero_customer_route_depot_depot_cost_zero (data : DataModel)
    (assignment : List (List Nat)) (v : Nat)
    (hv : v < data.num_vehicles) (h : assignment.getD v [] = []) :
    (get_routes data assignment).1.getD v ([], 0)
        = ([data.depot, data.depot], 0) := by
  have hlen : v < ((List.range data.num_vehicles).map
      (fun w => get_route data (assignment.getD w []))).length := by
    simpa using hv
  rw [get_routes_fst, List.getD_eq_getElem _ _ hlen]
  simp only [List.getElem_map, List.getElem_range]
  rw [h]
  rfl

theorem zero_customer_route_depot_depot_cost_zero_witness :
    (0 < c8data.num_vehicles) ∧
    (([[], []] : List (List Nat)).getD 0 [] = []) ∧
    (get_routes c8data [[], []]).1.getD 0 ([], 0)
        = ([c8data.depot, c8data.depot], 0) :=
  ⟨by with_unfolding_all decide, by decide,
   zero_customer_route_depot_depot_cost_zero c8data [[], []] 0
     (by with_unfolding_all decide) (by decide)⟩

/-- C5: when time-window mode is active, compilation installs a Time
dimension whose transit evaluator returns the raw `distance[i][j]` (the
cost evaluator, in contrast, scales by `cost_per_km` and integerizes),
with per-stop slack capped at 30, cumulative horizon capped at 1440, the
start cumul not forced to zero, and each node's cumulative variable
ranged to that node's `[earliest, latest]` window. -/
theorem time_dimension_config (data : DataModel) (uc : Bool)
    (tws : List (ℤ × ℤ)) (h : data.time_windows = some tws) :
    (compile_routing data uc true).time_dimension
        = some { transit_eval := time_callback data
                 slack_max := 30
                 capacity := 1440
                 fix_start_cumul_to_zero := false
                 dim_name := "Time"
                 cumul_ranges := tws } ∧
    (∀ i j, time_callback data i j = dist data i j) ∧
    (∀ i j, (compile_routing data uc true).arc_cost i j
        = pyInt (dist data i j * data.cost_per_km)) := by
  refine ⟨?_, fun i j => rfl, fun i j => rfl⟩
  simp [compile_routing, h]

theorem time_dimension_config_witness :
    vrptwData.time_windows = some [(0, 100), (0, 50)] ∧
    (compile_routing vrptwData true true).time_dimension
        = some { transit_eval := time_callback vrptwData
                 slack_max := 30
                 capacity := 1440
                 fix_start_cumul_to_zero := false
                 dim_name := "Time"
                 cumul_ranges := [(0, 100), (0, 50)] } ∧
    time_callback vrptwData 0 1 = dist vrptwData 0 1 ∧
    (compile_routing vrptwData true true).arc_cost 0 1
        = pyInt (dist vrptwData 0 1 * vrptwData.cost_per_km) := by
  have h := time_dimension_config vrptwData true [(0, 100), (0, 50)] rfl
  exact ⟨rfl, h.1, h.2.1 0 1, h.2.2 0 1⟩

/-- C6: when capacity mode is active, compilation installs a Capacity
dimension carrying the unary demand evaluator, zero slack (exact
accumulation), lower bound 0 on the cumulative, the per-vehicle
capacities as upper bounds, and start-cumul-to-zero semantics; the demand
evaluator returns `demands[node]`; and no Capacity dimension is installed
when capacity mode is inactive. -/
theorem capacity_dimension_config (data : DataModel) (utw : Bool)
    (dems caps : List ℤ) (hd : data.demands = some dems)
    (hc : data.vehicle_capacities = some caps) :
    (compile_routing data true utw).capacity_dimension
        = some { demand_eval := demand_callback data
                 slack_max := 0
                 vehicle_capacities := caps
                 fix_start_cumul_to_zero := true
                 cumul_min := 0
                 dim_name := "Capacity" } ∧
    (∀ n, demand_callback data n = dems.getD n 0) ∧
    (compile_routing data false utw).capacity_dimension = none := by
  refine ⟨?_, fun n => ?_, ?_⟩
  · simp [compile_routing, hc]
  · rw [demand_callback, hd]
    rfl
  · simp [compile_routing]

theorem capacity_dimension_config_witness :
    vrptwData.demands = some [0, 1] ∧
    vrptwData.vehicle_capacities = some [5] ∧
    (compile_routing vrptwData true true).capacity_dimension
        = some { demand_eval := demand_callback vrptwData
                 slack_max := 0
                 vehicle_capacities := [5]
                 fix_start_cumul_to_zero := true
                 cumul_min := 0
                 dim_name := "Capacity" } ∧
    demand_callback vrptwData 1 = 1 ∧
    (compile_routing vrptwData false true).capacity_dimension = none := by
  have h := capacity_dimension_config vrptwData true [0, 1] [5] rfl rfl
  exact ⟨rfl, rfl, h.1, h.2.1 1, h.2.2⟩

/-- C4: the solution component returned by `solve_vrp` is exactly the
search engine's result: it is `none` precisely when the search found no
feasible assignment (an explicit absent value, not an exception — the
embedding has no failure channel), and whenever the engine surfaces only
feasible assignments, every solution `solve_vrp` returns is feasible, so
no partial or constraint-violating solution is ever surfaced as a
success. -/
theorem solve_vrp_infeasible_returns_none (data : DataModel) (uc utw : Bool)
    (engine : DataModel → RoutingSetup → Option (List (List Nat)))
    (hE : ∀ a, engine data (compile_routing data uc utw) = some a →
      FeasibleAssignment data a) :
    ((solve_vrp data uc utw engine).1 = none
        ↔ engine data (compile_routing data uc utw) = none) ∧
    (∀ a, (solve_vrp data uc utw engine).1 = some a →
      FeasibleAssignment data a) := by
  have hs : (solve_vrp data uc utw engine).1
      = engine data (compile_routing data uc utw) := by
    rcases h : engine data (compile_routing data uc utw) with _ | a <;>
      simp [solve_vrp, h]
  rw [hs]
  exact ⟨Iff.rfl, hE⟩

theorem solve_vrp_infeasible_returns_none_witness :
    (solve_vrp c8zero true false noSolutionEngine).1 = none :=
  (solve_vrp_infeasible_returns_none c8zero true false noSolutionEngine
    (fun a h => by simp [noSolutionEngine] at h)).1.mpr rfl

/-- C9: two solves of the same data model with the same flags and the
same search engine (the compiled search parameters are identically
reconstructed inside each run) produce the same result; in particular
both runs report identical total cost.  The engine, modelled from the
spec as a pure function of the model and the compiled setup, has no
source of nondeterminism. -/
theorem solve_twice_same_total_cost (data data2 : DataModel) (uc utw : Bool)
    (engine : DataModel → RoutingSetup → Option (List (List Nat)))
    (h : data2 = data) :
    solve_total data uc utw engine = solve_total data2 uc utw engine ∧
    (∀ c c2, solve_total data uc utw engine = some c →
      solve_total data2 uc utw engine = some c2 → c = c2) := by
  subst h
  refine ⟨rfl, fun c c2 h1 h2 => ?_⟩
  rw [h1] at h2
  exact Option.some_inj.mp h2

theorem solve_twice_same_total_cost_witness :
    solve_total c9data false false fixedEngine
        = solve_total c9data false false fixedEngine ∧
    solve_total c9data false false fixedEngine = some 4 :=
  ⟨(solve_twice_same_total_cost c9data c9data false false fixedEngine rfl).1,
   by with_unfolding_all decide⟩

/-- C1: for every feasible assignment returned by the search, every
extracted route has the depot as its first and its last node, and every
non-depot node of the model appears exactly once across all extracted
routes. -/
theorem routes_partition_and_depot_endpoints (data : DataModel)
    (assignment : List (List Nat)) (hF : FeasibleAssignment data assignment) :
    (∀ r ∈ (get_routes data assignment).1.map Prod.fst,
        r.head? = some data.depot ∧ r.getLast? = some data.depot) ∧
    (∀ n, n < data.distance_matrix.length → n ≠ data.depot →
        (((get_routes data assignment).1.map Prod.fst).map
          (fun r => r.count n)).sum = 1) := by
  have hroutes : (get_routes data assignment).1.map Prod.fst
      = (List.range data.num_vehicles).map
          (fun v => data.depot :: (assignment.getD v [] ++ [data.depot])) := by
    rw [get_routes_fst, List.map_map]
    congr 1
    funext v
    exact get_route_fst data (assignment.getD v [])
  constructor
  · intro r hr
    rw [hroutes] at hr
    obtain ⟨v, hv, rfl⟩ := List.mem_map.mp hr
    refine ⟨rfl, ?_⟩
    rw [← List.cons_append]
    exact List.getLast?_concat _
  · intro n hn hne
    rw [hroutes, List.map_map]
    have hcnt : ((fun r => List.count n r) ∘
        (fun v => data.depot :: (assignment.getD v [] ++ [data.depot])))
        = fun v => (assignment.getD v []).count n := by
      funext v
      simp [Function.comp, List.count_cons, List.count_append, hne]
    rw [hcnt, ← hF.1]
    have hmap : (List.range assignment.length).map
        (fun v => (assignment.getD v []).count n)
        = assignment.map (fun l => l.count n) := by
      have h0 := getD_range_map assignment []
      calc (List.range assignment.length).map
            (fun v => (assignment.getD v []).count n)
          = ((List.range assignment.length).map
              (fun v => assignment.getD v [])).map (fun l => l.count n) := by
            rw [List.map_map]
            rfl
        _ = assignment.map (fun l => l.count n) := by rw [h0]
    rw [hmap]
    exact hF.2.2 n hn hne

theorem routes_partition_and_depot_endpoints_witness :
    ([0, 1, 2, 0] : List Nat).head? = some c1data.depot ∧
    ([0, 1, 2, 0] : List Nat).getLast? = some c1data.depot ∧
    (((get_routes c1data [[1, 2]]).1.map Prod.fst).map
      (fun r => r.count 1)).sum = 1 := by
  have h := routes_partition_and_depot_endpoints c1data [[1, 2]]
    (by with_unfolding_all decide)
  refine ⟨(h.1 [0, 1, 2, 0] ?m).1, (h.1 [0, 1, 2, 0] ?m).2,
    h.2 1 (by with_unfolding_all decide) (by decide)⟩
  case m => with_unfolding_all decide
